import Mathlib

/-!
Shallow embedding of the balance-consistency core of the expense-tracker
backend (src/main.py).  The embedding fixes one authenticated user (the
claims are all about a single account) and models:

* the user's stored balance (`users_collection`, field `balance`) as a `Rat`;
* the expense ledger (`expenses_collection`) as a `List Expense`, MongoDB
  `_id`s modelled as `Nat` drawn from a counter `nextId`, insertion order
  preserved (`insert_one` appends);
* the registered categories (`categories_collection`) as a `List String`;
* amounts (Python floats holding decimal money values) as `Rat`;
* each HTTPException raise site as an error value of type `Err`, the state
  returned unchanged (a raise aborts the handler before any later write).

The endpoint functions `add_funds`, `add_expense`, `get_expense`,
`update_expense`, `delete_expense` and the helper
`resolve_expense_object_id` are translated line by line from main.py,
keeping the source's order of checks and writes.
-/

namespace ExpenseTracker

/-- An expense document as stored in `expenses_collection`
(fields `_id`, `amount`, `category`, `date`, `description`;
the `user_id` field is constant in the single-user model and omitted). -/
structure Expense where
  id : Nat
  amount : Rat
  category : String
  date : String
  description : String
deriving Repr, DecidableEq

/-- Request body of POST /expenses (pydantic model `ExpenseCreate`). -/
structure ExpenseCreate where
  amount : Rat
  category : String
  date : String
  description : String
deriving Repr, DecidableEq

/-- Request body of PUT /expenses/{id} (pydantic model `ExpenseUpdate`);
every field optional, `none` meaning absent from the patch. -/
structure ExpenseUpdate where
  amount : Option Rat
  category : Option String
  date : Option String
  description : Option String
deriving Repr, DecidableEq

/-- The HTTPException raise sites of the core, by kind:
`invalidAmount`    = 400 "Amount must be positive" (add_funds);
`insufficientFunds`= 400 "Insufficient funds ..." (add_expense, update_expense);
`invalidCategory`  = 400 "Invalid category";
`notFound`         = 404 "Expense not found or not authorized";
`outOfRange`       = 404 "Expense index out of range";
`invalidRequest`   = 400 "No fields to update";
`invalidFormat`    = 400 "Invalid expense ID format ...". -/
inductive Err where
  | invalidAmount
  | insufficientFunds
  | invalidCategory
  | notFound
  | outOfRange
  | invalidRequest
  | invalidFormat
deriving Repr, DecidableEq

/-- The parsed form of the `expense_id` path parameter:
a string that parses as a 24-char ObjectId (`oid`), else one that parses
as a Python int (`index`), else neither (`malformed`). -/
inductive ExpenseId where
  | oid (n : Nat)
  | index (i : Int)
  | malformed
deriving Repr, DecidableEq

/-- The persistent state of one user's slice of the database:
stored balance, owned expense documents in insertion order, the global
category names, and the id counter standing in for ObjectId generation. -/
structure State where
  balance : Rat
  expenses : List Expense
  categories : List String
  nextId : Nat
deriving Repr, DecidableEq

/-- MongoDB find_one on the expenses collection filtered by id and owner:
first document with the given id. -/
def findOne (oid : Nat) : List Expense → Option Expense
  | [] => none
  | e :: rest => if e.id == oid then some e else findOne oid rest

/-- MongoDB update_one on the expenses collection:
rewrite the first document with the given id. -/
def updateOne (oid : Nat) (f : Expense → Expense) : List Expense → List Expense
  | [] => []
  | e :: rest => if e.id == oid then f e :: rest else e :: updateOne oid f rest

/-- MongoDB delete_one on the expenses collection:
remove the first document with the given id. -/
def deleteOne (oid : Nat) : List Expense → List Expense
  | [] => []
  | e :: rest => if e.id == oid then rest else e :: deleteOne oid rest

/-- MongoDB find on the owner's expenses followed by sort on the date
field, descending: the owner's expenses ordered by date descending
(string comparison, stable on equal dates). -/
def sortByDateDesc (l : List Expense) : List Expense :=
  l.insertionSort (fun a b => b.date < a.date)

/-- Source helper resolve_expense_object_id (main.py lines 145-159): a parseable
ObjectId is returned as-is (existence is checked later by the caller's
`find_one`); otherwise the string must parse as an int, which is taken as
a position in the owner's fresh date-descending listing; a position
outside `[0, len)` raises 404 "Expense index out of range". -/
def resolve_expense_object_id (s : State) : ExpenseId → Except Err Nat
  | .oid n => .ok n
  | .malformed => .error .invalidFormat
  | .index i =>
    let expenses := sortByDateDesc s.expenses
    if i < 0 ∨ (expenses.length : Int) ≤ i then .error .outOfRange
    else
      match expenses.get? i.toNat with
      | some e => .ok e.id
      | none => .error .outOfRange

/-- POST /funds (`add_funds`, main.py lines 340-351): reject a
non-positive amount, else increment the stored balance and return it. -/
def add_funds (s : State) (amount : Rat) : Except Err Rat × State :=
  if amount ≤ 0 then (.error .invalidAmount, s)
  else
    let s2 : State := { s with balance := s.balance + amount }
    (.ok s2.balance, s2)

/-- POST /expenses (`add_expense`, main.py lines 215-236), with the
source's order of checks: the funds check (`balance < amount` raises)
comes first, then the category check, then `insert_one` and the
`$inc` of `-amount` on the balance.  No positivity check on `amount`
appears in the source. -/
def add_expense (s : State) (expense : ExpenseCreate) : Except Err Nat × State :=
  if s.balance < expense.amount then (.error .insufficientFunds, s)
  else if s.categories.contains expense.category then
    let doc : Expense :=
      { id := s.nextId, amount := expense.amount, category := expense.category,
        date := expense.date, description := expense.description }
    (.ok s.nextId,
      { s with
          expenses := s.expenses ++ [doc],
          balance := s.balance - expense.amount,
          nextId := s.nextId + 1 })
  else (.error .invalidCategory, s)

/-- GET /expenses/{id} (`get_expense`, main.py lines 272-287):
resolve, then `find_one`; absent document raises 404. -/
def get_expense (s : State) (eid : ExpenseId) : Except Err Expense :=
  match resolve_expense_object_id s eid with
  | .error e => .error e
  | .ok oid =>
    match findOne oid s.expenses with
    | none => .error .notFound
    | some doc => .ok doc

/-- Effect of the set-update document built from update_data: every field
present in the patch overwrites the stored field. -/
def applyPatch (p : ExpenseUpdate) (e : Expense) : Expense :=
  { e with
      amount := p.amount.getD e.amount,
      category := p.category.getD e.category,
      date := p.date.getD e.date,
      description := p.description.getD e.description }

/-- Test for an empty update_data: no field of the patch is present. -/
def emptyPatch (p : ExpenseUpdate) : Bool :=
  p.amount.isNone && p.category.isNone && p.date.isNone && p.description.isNone

/-- The category-validation clause of `update_expense`:
`"category" in update_data and not categories_collection.find_one(...)`. -/
def patchCategoryOk (s : State) (p : ExpenseUpdate) : Bool :=
  match p.category with
  | some c => s.categories.contains c
  | none => true

/-- PUT /expenses/{id} (`update_expense`, main.py lines 290-318), with
the source's order: resolve, `find_one` (404 if absent), empty-patch
check, category check, affordability check
(`balance < new_amount - original_amount` raises), then `update_one`
and the `$inc` of `-amount_change` on the balance. -/
def update_expense (s : State) (eid : ExpenseId) (p : ExpenseUpdate) :
    Except Err Unit × State :=
  match resolve_expense_object_id s eid with
  | .error e => (.error e, s)
  | .ok oid =>
    match findOne oid s.expenses with
    | none => (.error .notFound, s)
    | some doc =>
      if emptyPatch p then (.error .invalidRequest, s)
      else if patchCategoryOk s p = false then (.error .invalidCategory, s)
      else
        let amount_change := p.amount.getD doc.amount - doc.amount
        if s.balance < amount_change then (.error .insufficientFunds, s)
        else
          (.ok (),
            { s with
                expenses := updateOne oid (applyPatch p) s.expenses,
                balance := s.balance - amount_change })

/-- DELETE /expenses/{id} (`delete_expense`, main.py lines 321-335):
resolve, `find_one` (404 if absent), `delete_one`, then `$inc` of the
document's current amount back onto the balance. -/
def delete_expense (s : State) (eid : ExpenseId) : Except Err Unit × State :=
  match resolve_expense_object_id s eid with
  | .error e => (.error e, s)
  | .ok oid =>
    match findOne oid s.expenses with
    | none => (.error .notFound, s)
    | some doc =>
      (.ok (),
        { s with
            expenses := deleteOne oid s.expenses,
            balance := s.balance + doc.amount })

/-- One request of the balance-consistency core issued by the user. -/
inductive Op where
  | addFunds (amount : Rat)
  | createExpense (req : ExpenseCreate)
  | updateExpense (eid : ExpenseId) (patch : ExpenseUpdate)
  | deleteExpense (eid : ExpenseId)
deriving Repr, DecidableEq

/-- The state after one request (errors leave the state unchanged). -/
def applyOp (s : State) : Op → State
  | .addFunds a => (add_funds s a).2
  | .createExpense r => (add_expense s r).2
  | .updateExpense eid p => (update_expense s eid p).2
  | .deleteExpense eid => (delete_expense s eid).2

/-- The state after a sequence of requests, processed in order. -/
def runOps (s : State) : List Op → State
  | [] => s
  | op :: rest => runOps (applyOp s op) rest

/-- The funds an operation successfully adds: `add_funds` succeeds
exactly when its amount passes the `amount <= 0` rejection. -/
def fundsOf : Op → Rat
  | .addFunds a => if a ≤ 0 then 0 else a
  | .createExpense _ => 0
  | .updateExpense _ _ => 0
  | .deleteExpense _ => 0

/-- Total of all successfully added funds across a request sequence. -/
def fundsTotal : List Op → Rat
  | [] => 0
  | op :: rest => fundsOf op + fundsTotal rest

/-- Sum of the amounts of the expenses currently in the ledger. -/
def amountsSum : List Expense → Rat
  | [] => 0
  | e :: rest => e.amount + amountsSum rest

/-- POST /register: a fresh account starts with balance 0.0 and no
expenses; the registered category names are ambient. -/
def registerState (cats : List String) : State :=
  { balance := 0, expenses := [], categories := cats, nextId := 0 }

/-- A fresh account with the one registered category "Food". -/
def freshFood : State := registerState ["Food"]

/-- A concrete account state: balance 25, one recorded expense. -/
def wLedger : State :=
  { balance := 25,
    expenses := [⟨0, 10, "Food", "2024-01-01", "lunch"⟩],
    categories := ["Food"], nextId := 1 }

/- ### Helper lemmas about the list primitives -/

theorem amountsSum_append (l : List Expense) (d : Expense) :
    amountsSum (l ++ [d]) = amountsSum l + d.amount := by
  induction l with
  | nil => simp [amountsSum]
  | cons x rest ih => simp [amountsSum, ih]; ring

theorem amountsSum_updateOne (oid : Nat) (f : Expense → Expense)
    (l : List Expense) (doc : Expense) (h : findOne oid l = some doc) :
    amountsSum (updateOne oid f l) = amountsSum l - doc.amount + (f doc).amount := by
  induction l with
  | nil => simp [findOne] at h
  | cons x rest ih =>
    by_cases hx : (x.id == oid) = true
    · rw [findOne, if_pos hx] at h
      injection h with h
      subst h
      rw [updateOne, if_pos hx]
      simp [amountsSum]; ring
    · rw [findOne, if_neg hx] at h
      rw [updateOne, if_neg hx]
      simp [amountsSum, ih h]; ring

theorem amountsSum_deleteOne (oid : Nat) (l : List Expense) (doc : Expense)
    (h : findOne oid l = some doc) :
    amountsSum (deleteOne oid l) = amountsSum l - doc.amount := by
  induction l with
  | nil => simp [findOne] at h
  | cons x rest ih =>
    by_cases hx : (x.id == oid) = true
    · rw [findOne, if_pos hx] at h
      injection h with h
      subst h
      rw [deleteOne, if_pos hx]
      simp [amountsSum]
    · rw [findOne, if_neg hx] at h
      rw [deleteOne, if_neg hx]
      simp [amountsSum, ih h]; ring

/- ### Conservation: each operation moves value between balance and
ledger without creating or destroying any, except a successful
add_funds which injects exactly its amount. -/

theorem add_funds_conservation (s : State) (a : Rat) :
    (add_funds s a).2.balance + amountsSum (add_funds s a).2.expenses =
      s.balance + amountsSum s.expenses + fundsOf (.addFunds a) := by
  simp only [add_funds, fundsOf]
  by_cases h : a ≤ 0
  · simp [h]
  · simp [h]
    ring

theorem add_expense_conservation (s : State) (r : ExpenseCreate) :
    (add_expense s r).2.balance + amountsSum (add_expense s r).2.expenses =
      s.balance + amountsSum s.expenses := by
  unfold add_expense
  by_cases h1 : s.balance < r.amount
  · simp [h1]
  · by_cases h2 : r.category ∈ s.categories
    · simp [h1, h2, amountsSum_append]
    · simp [h1, h2]

theorem update_expense_conservation (s : State) (eid : ExpenseId) (p : ExpenseUpdate) :
    (update_expense s eid p).2.balance + amountsSum (update_expense s eid p).2.expenses =
      s.balance + amountsSum s.expenses := by
  unfold update_expense
  cases hres : resolve_expense_object_id s eid with
  | error e => simp
  | ok oid =>
    cases hfind : findOne oid s.expenses with
    | none => simp [hfind]
    | some doc =>
      by_cases h1 : emptyPatch p = true
      · simp [hfind, h1]
      · by_cases h2 : patchCategoryOk s p = false
        · simp [hfind, h1, h2]
        · by_cases h3 : s.balance < p.amount.getD doc.amount - doc.amount
          · simp [hfind, h1, h2, h3]
          · simp [hfind, h1, h2, h3,
              amountsSum_updateOne oid (applyPatch p) s.expenses doc hfind,
              applyPatch]
            ring

theorem delete_expense_conservation (s : State) (eid : ExpenseId) :
    (delete_expense s eid).2.balance + amountsSum (delete_expense s eid).2.expenses =
      s.balance + amountsSum s.expenses := by
  unfold delete_expense
  cases hres : resolve_expense_object_id s eid with
  | error e => simp
  | ok oid =>
    cases hfind : findOne oid s.expenses with
    | none => simp [hfind]
    | some doc =>
      simp [hfind, amountsSum_deleteOne oid s.expenses doc hfind]

theorem applyOp_conservation (s : State) (op : Op) :
    (applyOp s op).balance + amountsSum (applyOp s op).expenses =
      s.balance + amountsSum s.expenses + fundsOf op := by
  cases op with
  | addFunds a => exact add_funds_conservation s a
  | createExpense r =>
    rw [applyOp]
    rw [add_expense_conservation s r]
    simp [fundsOf]
  | updateExpense eid p =>
    rw [applyOp]
    rw [update_expense_conservation s eid p]
    simp [fundsOf]
  | deleteExpense eid =>
    rw [applyOp]
    rw [delete_expense_conservation s eid]
    simp [fundsOf]

theorem runOps_conservation (ops : List Op) : ∀ s : State,
    (runOps s ops).balance + amountsSum (runOps s ops).expenses =
      s.balance + amountsSum s.expenses + fundsTotal ops := by
  induction ops with
  | nil => intro s; simp [runOps, fundsTotal]
  | cons op rest ih =>
    intro s
    rw [runOps, fundsTotal]
    rw [ih (applyOp s op), applyOp_conservation]
    ring

/- ### Failed operations leave the state untouched: every raise site of
the three expense endpoints returns before any collection write. -/

theorem add_funds_error_state (s : State) (a : Rat) (e : Err)
    (h : (add_funds s a).1 = .error e) : (add_funds s a).2 = s := by
  unfold add_funds at h ⊢
  by_cases hc : a ≤ 0
  · simp [hc]
  · simp [hc] at h

theorem add_expense_error_state (s : State) (r : ExpenseCreate) (e : Err)
    (h : (add_expense s r).1 = .error e) : (add_expense s r).2 = s := by
  unfold add_expense at h ⊢
  by_cases h1 : s.balance < r.amount
  · simp [h1]
  · by_cases h2 : r.category ∈ s.categories
    · simp [h1, h2] at h
    · simp [h1, h2]

theorem update_expense_error_state (s : State) (eid : ExpenseId) (p : ExpenseUpdate)
    (e : Err) (h : (update_expense s eid p).1 = .error e) :
    (update_expense s eid p).2 = s := by
  unfold update_expense at h ⊢
  cases hres : resolve_expense_object_id s eid with
  | error e2 => simp [hres]
  | ok oid =>
    cases hfind : findOne oid s.expenses with
    | none => simp [hres, hfind]
    | some doc =>
      by_cases h1 : emptyPatch p = true
      · simp [hres, hfind, h1]
      · by_cases h2 : patchCategoryOk s p = false
        · simp [hres, hfind, h1, h2]
        · by_cases h3 : s.balance < p.amount.getD doc.amount - doc.amount
          · simp [hres, hfind, h1, h2, h3]
          · rw [hres] at h
            simp [hfind, h1, h2, h3] at h

theorem delete_expense_error_state (s : State) (eid : ExpenseId) (e : Err)
    (h : (delete_expense s eid).1 = .error e) : (delete_expense s eid).2 = s := by
  unfold delete_expense at h ⊢
  cases hres : resolve_expense_object_id s eid with
  | error e2 => simp [hres]
  | ok oid =>
    cases hfind : findOne oid s.expenses with
    | none => simp [hres, hfind]
    | some doc =>
      rw [hres] at h
      simp [hfind] at h

/- ### Positional-index resolution lemmas -/

theorem sortByDateDesc_perm (l : List Expense) : (sortByDateDesc l).Perm l :=
  List.perm_insertionSort _ l

theorem findOne_eq_of_mem {l : List Expense} {e : Expense}
    (hnd : (l.map Expense.id).Nodup) (he : e ∈ l) : findOne e.id l = some e := by
  induction l with
  | nil => simp at he
  | cons x rest ih =>
    rw [List.map_cons, List.nodup_cons] at hnd
    rcases List.mem_cons.mp he with rfl | hmem
    · simp [findOne]
    · have hne : ¬(x.id == e.id) = true := by
        simp only [beq_iff_eq]
        intro hid
        exact hnd.1 (hid ▸ List.mem_map_of_mem Expense.id hmem)
      rw [findOne, if_neg hne]
      exact ih hnd.2 hmem

theorem resolve_index_lt (s : State) (i : Nat)
    (h : i < (sortByDateDesc s.expenses).length) :
    resolve_expense_object_id s (.index (i : Int)) =
      .ok ((sortByDateDesc s.expenses).get ⟨i, h⟩).id := by
  have hcond : ¬ ((i : Int) < 0 ∨ ((sortByDateDesc s.expenses).length : Int) ≤ (i : Int)) := by
    push_neg
    exact ⟨Int.natCast_nonneg i, by exact_mod_cast h⟩
  simp only [resolve_expense_object_id]
  rw [if_neg hcond]
  have htn : (i : Int).toNat = i := Int.toNat_natCast i
  rw [htn, List.get?_eq_get h]

theorem resolve_index_ge (s : State) (i : Nat)
    (h : (sortByDateDesc s.expenses).length ≤ i) :
    resolve_expense_object_id s (.index (i : Int)) = .error .outOfRange := by
  have hcond : (i : Int) < 0 ∨ ((sortByDateDesc s.expenses).length : Int) ≤ (i : Int) :=
    Or.inr (by exact_mod_cast h)
  simp only [resolve_expense_object_id]
  rw [if_pos hcond]

theorem resolve_index_neg (s : State) (i : Int) (h : i < 0) :
    resolve_expense_object_id s (.index i) = .error .outOfRange := by
  simp only [resolve_expense_object_id]
  rw [if_pos (Or.inl h)]

/- ### Claim theorems -/

/-- Claim C1: for every sequence of AddFunds/CreateExpense/UpdateExpense/
DeleteExpense operations applied to one account starting from
registration (balance 0), the final stored balance equals the sum of all
successfully added funds amounts minus the sum of the final amounts of
the expenses still present in the ledger. -/
theorem balance_invariant (cats : List String) (ops : List Op) :
    (runOps (registerState cats) ops).balance =
      fundsTotal ops - amountsSum (runOps (registerState cats) ops).expenses := by
  have h := runOps_conservation ops (registerState cats)
  have h0 : (registerState cats).balance = 0 := rfl
  have h1 : amountsSum (registerState cats).expenses = 0 := rfl
  rw [h0, h1] at h
  linarith

/-- Claim C3: CreateExpense with a registered category fails with
InsufficientFunds exactly when the requested amount strictly exceeds the
current balance; an amount exactly equal to the balance succeeds and
drives the balance to exactly 0; on failure the whole state (ledger and
balance) is unchanged. -/
theorem create_insufficient_iff (s : State) (r : ExpenseCreate)
    (hcat : r.category ∈ s.categories) :
    ((add_expense s r).1 = .error .insufficientFunds ↔ s.balance < r.amount) ∧
    (r.amount = s.balance →
      (add_expense s r).1 = .ok s.nextId ∧ (add_expense s r).2.balance = 0) ∧
    (s.balance < r.amount → (add_expense s r).2 = s) := by
  have hc2 : (s.categories.contains r.category) = true := by simpa using hcat
  by_cases h1 : s.balance < r.amount
  · refine ⟨⟨fun _ => h1, fun _ => ?_⟩, fun heq => ?_, fun _ => ?_⟩
    · unfold add_expense; rw [if_pos h1]
    · exact absurd h1 (by rw [heq]; exact lt_irrefl _)
    · unfold add_expense; rw [if_pos h1]
  · have heval1 : (add_expense s r).1 = .ok s.nextId := by
      unfold add_expense; rw [if_neg h1, if_pos hc2]
    have heval2 : (add_expense s r).2.balance = s.balance - r.amount := by
      unfold add_expense; rw [if_neg h1, if_pos hc2]
    refine ⟨⟨fun herr => ?_, fun hc => absurd hc h1⟩,
      fun heq => ⟨heval1, ?_⟩, fun hc => absurd hc h1⟩
    · rw [heval1] at herr; exact Except.noConfusion herr
    · rw [heval2, heq]; exact sub_self _

/-- Witness for C3: balance 25, registered category, amount 25 equals
the balance; the expense is accepted and the balance is driven to 0. -/
theorem create_insufficient_iff_witness :
    ("Food" ∈ wLedger.categories) ∧
    (add_expense wLedger ⟨25, "Food", "2024-02-02", "rent"⟩).2.balance = 0 := by
  refine ⟨by decide, ?_⟩
  exact ((create_insufficient_iff wLedger ⟨25, "Food", "2024-02-02", "rent"⟩
    (by decide)).2.1 rfl).2

/-- Claim C5, evaluated at the failing input: CreateExpense performs no
positivity check, so on a fresh account an expense of amount -100 with a
registered category is accepted, a ledger record with negative amount is
inserted, and the balance increases to 100. -/
theorem create_nonpositive_inserted :
    (add_expense freshFood ⟨-100, "Food", "2024-01-01", "refund"⟩).1 = .ok 0 ∧
    (add_expense freshFood ⟨-100, "Food", "2024-01-01", "refund"⟩).2.expenses =
      [⟨0, -100, "Food", "2024-01-01", "refund"⟩] ∧
    (add_expense freshFood ⟨-100, "Food", "2024-01-01", "refund"⟩).2.balance = 100 := by
  refine ⟨rfl, rfl, ?_⟩
  have h1 : ¬ (freshFood.balance < (-100 : Rat)) := by norm_num [freshFood, registerState]
  unfold add_expense
  rw [if_neg h1]
  norm_num [freshFood, registerState]

/-- Claim C6 counterexample: on a fresh account (balance 0) a request
with the unregistered category "Bills" and amount 10 (exceeding the
balance) is rejected with InsufficientFunds, not InvalidCategory: the
funds check runs before the category check. -/
theorem create_category_order_counterexample :
    ("Bills" ∉ freshFood.categories) ∧
    (add_expense freshFood ⟨10, "Bills", "2024-01-01", "taxi"⟩).1 =
      .error .insufficientFunds ∧
    Err.insufficientFunds ≠ Err.invalidCategory := by
  exact ⟨by decide, rfl, by decide⟩

/-- Claim C6 (amended): CreateExpense checks funds before the category:
with an unregistered category the call fails with InvalidCategory only
when the amount does not exceed the balance; when the amount also
exceeds the balance the reported error is InsufficientFunds. -/
theorem create_funds_before_category (s : State) (r : ExpenseCreate)
    (hcat : r.category ∉ s.categories) :
    (s.balance < r.amount → (add_expense s r).1 = .error .insufficientFunds) ∧
    (¬ s.balance < r.amount → (add_expense s r).1 = .error .invalidCategory) := by
  constructor
  · intro h; unfold add_expense; rw [if_pos h]
  · intro h
    have hc3 : ¬ ((s.categories.contains r.category) = true) := by simpa using hcat
    unfold add_expense
    rw [if_neg h, if_neg hc3]

/-- Witness for the amended C6: unregistered category with affordable
amount yields InvalidCategory. -/
theorem create_funds_before_category_witness :
    ("Bills" ∉ wLedger.categories) ∧
    (add_expense wLedger ⟨10, "Bills", "2024-01-01", "taxi"⟩).1 =
      .error .invalidCategory := by
  refine ⟨by decide, ?_⟩
  exact (create_funds_before_category wLedger ⟨10, "Bills", "2024-01-01", "taxi"⟩
    (by decide)).2 (by norm_num [wLedger])

/-- Claim C7: every validation failure of CreateExpense, UpdateExpense
and DeleteExpense (InvalidCategory, InsufficientFunds, NotFound,
OutOfRange, InvalidRequest) is raised before any mutation: when the call
returns such an error the ledger and the stored balance are exactly as
they were before the call. -/
theorem validation_failures_leave_state (s : State) :
    (∀ r e, (add_expense s r).1 = .error e →
      (e = Err.invalidCategory ∨ e = Err.insufficientFunds ∨ e = Err.notFound ∨
        e = Err.outOfRange ∨ e = Err.invalidRequest) →
      (add_expense s r).2 = s) ∧
    (∀ eid p e, (update_expense s eid p).1 = .error e →
      (e = Err.invalidCategory ∨ e = Err.insufficientFunds ∨ e = Err.notFound ∨
        e = Err.outOfRange ∨ e = Err.invalidRequest) →
      (update_expense s eid p).2 = s) ∧
    (∀ eid e, (delete_expense s eid).1 = .error e →
      (e = Err.invalidCategory ∨ e = Err.insufficientFunds ∨ e = Err.notFound ∨
        e = Err.outOfRange ∨ e = Err.invalidRequest) →
      (delete_expense s eid).2 = s) :=
  ⟨fun r e h _ => add_expense_error_state s r e h,
   fun eid p e h _ => update_expense_error_state s eid p e h,
   fun eid e h _ => delete_expense_error_state s eid e h⟩

/-- Witness for C7 at a concrete failing call: a fresh account rejects a
7-unit expense with InsufficientFunds and is left unchanged. -/
theorem validation_failures_leave_state_witness :
    (add_expense freshFood ⟨7, "Food", "2024-01-01", "coffee"⟩).1 =
      .error Err.insufficientFunds ∧
    (add_expense freshFood ⟨7, "Food", "2024-01-01", "coffee"⟩).2 = freshFood := by
  refine ⟨rfl, ?_⟩
  exact (validation_failures_leave_state freshFood).1 ⟨7, "Food", "2024-01-01", "coffee"⟩
    Err.insufficientFunds rfl (Or.inr (Or.inl rfl))

/-- Claim C10: a strictly negative numeric index is rejected by
resolution with the same out-of-range error as a too-large index, and
get_expense, update_expense and delete_expense neither return nor mutate
anything for it. -/
theorem negative_index_out_of_range (s : State) (i : Int) (h : i < 0) :
    resolve_expense_object_id s (.index i) = .error .outOfRange ∧
    get_expense s (.index i) = .error .outOfRange ∧
    (∀ p, update_expense s (.index i) p = (.error .outOfRange, s)) ∧
    delete_expense s (.index i) = (.error .outOfRange, s) := by
  have hres := resolve_index_neg s i h
  refine ⟨hres, ?_, fun p => ?_, ?_⟩
  · unfold get_expense; rw [hres]
  · unfold update_expense; rw [hres]
  · unfold delete_expense; rw [hres]

/-- Witness for C10 at index -1 on a concrete one-expense ledger. -/
theorem negative_index_out_of_range_witness :
    ((-1 : Int) < 0) ∧
    resolve_expense_object_id wLedger (.index (-1)) = .error .outOfRange :=
  ⟨by decide, (negative_index_out_of_range wLedger (-1) (by decide)).1⟩

/-- Claim C4 (amended): for UpdateExpense on an existing owned expense
with a valid non-empty patch, the call fails with InsufficientFunds
exactly when delta = new_amount - existing.amount strictly exceeds the
current balance; on success the stored balance decreases by exactly
delta; and whenever the current balance is nonnegative every decrease
(delta less or equal 0) passes the affordability check. -/
theorem update_delta_policy (s : State) (n : Nat) (doc : Expense) (p : ExpenseUpdate)
    (hfind : findOne n s.expenses = some doc)
    (hne : emptyPatch p = false)
    (hcat : patchCategoryOk s p = true) :
    ((update_expense s (.oid n) p).1 = .error .insufficientFunds ↔
      s.balance < p.amount.getD doc.amount - doc.amount) ∧
    ((update_expense s (.oid n) p).1 = .ok () →
      (update_expense s (.oid n) p).2.balance =
        s.balance - (p.amount.getD doc.amount - doc.amount)) ∧
    (0 ≤ s.balance → p.amount.getD doc.amount - doc.amount ≤ 0 →
      (update_expense s (.oid n) p).1 = .ok ()) := by
  have hres : resolve_expense_object_id s (.oid n) = .ok n := rfl
  have heval : update_expense s (.oid n) p =
      if s.balance < p.amount.getD doc.amount - doc.amount
      then (.error .insufficientFunds, s)
      else (.ok (),
        { s with expenses := updateOne n (applyPatch p) s.expenses,
                 balance := s.balance - (p.amount.getD doc.amount - doc.amount) }) := by
    simp [update_expense, hres, hfind, hne, hcat]
  rw [heval]
  by_cases h3 : s.balance < p.amount.getD doc.amount - doc.amount
  · rw [if_pos h3]
    refine ⟨⟨fun _ => h3, fun _ => rfl⟩, fun hok => Except.noConfusion hok,
      fun h0 hd => absurd h3 (by push_neg; linarith)⟩
  · rw [if_neg h3]
    exact ⟨⟨fun herr => Except.noConfusion herr, fun hc => absurd hc h3⟩,
      fun _ => rfl, fun _ _ => rfl⟩

/-- Operation sequence reaching a negative stored balance through the
unvalidated negative-amount path: create an expense of -5 (balance
becomes 5), create an expense of 5 (balance 0), delete the first
(balance 0 + (-5) = -5). -/
def negOps : List Op :=
  [ .createExpense ⟨-5, "Food", "2024-01-03", "promo"⟩,
    .createExpense ⟨5, "Food", "2024-01-04", "snack"⟩,
    .deleteExpense (.oid 0) ]

/-- The state reached by negOps: balance -5, one expense of amount 5. -/
def negState : State :=
  { balance := -5, expenses := [⟨1, 5, "Food", "2024-01-04", "snack"⟩],
    categories := ["Food"], nextId := 2 }

/-- Claim C4 counterexample: in the reachable state negState (balance
-5), decreasing the existing expense from 5 to 4 (delta = -1, a
decrease) is rejected with InsufficientFunds, so a decrease does not
always pass the affordability check. -/
theorem update_decrease_counterexample :
    runOps (registerState ["Food"]) negOps = negState ∧
    findOne 1 negState.expenses = some ⟨1, 5, "Food", "2024-01-04", "snack"⟩ ∧
    ((4 : Rat) - 5 ≤ 0) ∧
    (update_expense negState (.oid 1) ⟨some 4, none, none, none⟩).1 =
      .error .insufficientFunds := by
  refine ⟨?_, rfl, by norm_num, ?_⟩
  · norm_num [runOps, applyOp, negOps, registerState, add_expense, delete_expense,
      resolve_expense_object_id, findOne, deleteOne, negState]
  · norm_num [update_expense, resolve_expense_object_id, findOne, emptyPatch,
      patchCategoryOk, negState]

/-- Witness for the amended C4 on wLedger (balance 25, one expense of
amount 10): patching the amount down to 4 is a decrease (delta = -6),
the balance is nonnegative, so the update succeeds and the balance
becomes 25 - (4 - 10). -/
theorem update_delta_policy_witness :
    findOne 0 wLedger.expenses = some ⟨0, 10, "Food", "2024-01-01", "lunch"⟩ ∧
    emptyPatch ⟨some 4, none, none, none⟩ = false ∧
    patchCategoryOk wLedger ⟨some 4, none, none, none⟩ = true ∧
    (update_expense wLedger (.oid 0) ⟨some 4, none, none, none⟩).2.balance =
      25 - ((4 : Rat) - 10) := by
  have h := update_delta_policy wLedger 0 ⟨0, 10, "Food", "2024-01-01", "lunch"⟩
    ⟨some 4, none, none, none⟩ rfl rfl rfl
  have hok := h.2.2 (by norm_num [wLedger]) (by norm_num)
  exact ⟨rfl, rfl, rfl, h.2.1 hok⟩

/-- Claim C8 counterexample: an empty patch aimed at a nonexistent
expense fails with NotFound, not InvalidRequest: the ledger lookup runs
before the empty-patch check, so the failure is not prior to all I/O. -/
theorem empty_patch_counterexample :
    emptyPatch ⟨none, none, none, none⟩ = true ∧
    (update_expense freshFood (.oid 5) ⟨none, none, none, none⟩).1 =
      .error .notFound ∧
    Err.notFound ≠ Err.invalidRequest :=
  ⟨rfl, rfl, by decide⟩

/-- Claim C8 (amended): an UpdateExpense call whose patch contains no
fields always fails with no mutation, and fails with InvalidRequest
precisely when the id resolves to an existing owned expense; the
lookup (ledger read) precedes the empty-patch check, so a nonexistent
expense yields NotFound instead. -/
theorem empty_patch_rejected (s : State) (eid : ExpenseId) (p : ExpenseUpdate)
    (hp : emptyPatch p = true) :
    ((update_expense s eid p).2 = s) ∧
    (∃ e, (update_expense s eid p).1 = .error e) ∧
    (∀ n doc, eid = ExpenseId.oid n → findOne n s.expenses = some doc →
      (update_expense s eid p).1 = .error Err.invalidRequest) := by
  have herr : ∃ e, (update_expense s eid p).1 = .error e := by
    cases hres : resolve_expense_object_id s eid with
    | error e => exact ⟨e, by simp [update_expense, hres]⟩
    | ok oid =>
      cases hfind : findOne oid s.expenses with
      | none => exact ⟨.notFound, by simp [update_expense, hres, hfind]⟩
      | some doc => exact ⟨.invalidRequest, by simp [update_expense, hres, hfind, hp]⟩
  obtain ⟨e, he⟩ := herr
  refine ⟨update_expense_error_state s eid p e he, ⟨e, he⟩, ?_⟩
  rintro n doc rfl hfind
  simp [update_expense, resolve_expense_object_id, hfind, hp]

/-- Witness for the amended C8: the empty patch on the existing expense
of wLedger fails with InvalidRequest. -/
theorem empty_patch_rejected_witness :
    emptyPatch ⟨none, none, none, none⟩ = true ∧
    (update_expense wLedger (.oid 0) ⟨none, none, none, none⟩).1 =
      .error Err.invalidRequest := by
  refine ⟨rfl, ?_⟩
  exact (empty_patch_rejected wLedger (.oid 0) ⟨none, none, none, none⟩ rfl).2.2 0
    ⟨0, 10, "Food", "2024-01-01", "lunch"⟩ rfl rfl

/-- Claim C9: a zero-based numeric positional index resolves to exactly
the record a fresh date-descending listing shows at that position
(get_expense returns that record, and update/delete behave as if called
with that record's native id), and resolution fails with OutOfRange
when the index is at least the owner's expense count; this holds for
get_expense, update_expense and delete_expense. -/
theorem positional_index_resolution (s : State) (i : Nat)
    (hnd : (s.expenses.map Expense.id).Nodup) :
    (∀ h : i < (sortByDateDesc s.expenses).length,
      resolve_expense_object_id s (.index (i : Int)) =
        .ok ((sortByDateDesc s.expenses).get ⟨i, h⟩).id ∧
      get_expense s (.index (i : Int)) =
        .ok ((sortByDateDesc s.expenses).get ⟨i, h⟩) ∧
      (∀ p, update_expense s (.index (i : Int)) p =
        update_expense s (.oid ((sortByDateDesc s.expenses).get ⟨i, h⟩).id) p) ∧
      delete_expense s (.index (i : Int)) =
        delete_expense s (.oid ((sortByDateDesc s.expenses).get ⟨i, h⟩).id)) ∧
    ((sortByDateDesc s.expenses).length ≤ i →
      resolve_expense_object_id s (.index (i : Int)) = .error .outOfRange ∧
      get_expense s (.index (i : Int)) = .error .outOfRange ∧
      (∀ p, update_expense s (.index (i : Int)) p = (.error .outOfRange, s)) ∧
      delete_expense s (.index (i : Int)) = (.error .outOfRange, s)) := by
  constructor
  · intro h
    have hres := resolve_index_lt s i h
    have hmem : (sortByDateDesc s.expenses).get ⟨i, h⟩ ∈ s.expenses :=
      (sortByDateDesc_perm s.expenses).mem_iff.mp (List.get_mem _ _ _)
    have hfind := findOne_eq_of_mem hnd hmem
    rw [List.get_eq_getElem] at hres hfind
    have hres2 : resolve_expense_object_id s (.oid ((sortByDateDesc s.expenses)[i]).id) =
        .ok ((sortByDateDesc s.expenses)[i]).id := rfl
    refine ⟨?_, ?_, fun p => ?_, ?_⟩
    · rw [List.get_eq_getElem]; exact hres
    · rw [List.get_eq_getElem]; simp [get_expense, hres, hfind]
    · rw [List.get_eq_getElem]; simp only [update_expense, hres, hres2]
    · rw [List.get_eq_getElem]; simp only [delete_expense, hres, hres2]
  · intro h
    have hres := resolve_index_ge s i h
    refine ⟨hres, ?_, fun p => ?_, ?_⟩
    · simp [get_expense, hres]
    · simp [update_expense, hres]
    · simp [delete_expense, hres]

/-- Witness for C9 on the one-expense ledger wLedger: index 0 resolves
to the record the listing shows first, and index 1 is out of range. -/
theorem positional_index_resolution_witness :
    ((wLedger.expenses.map Expense.id).Nodup) ∧
    get_expense wLedger (.index 0) = .ok ⟨0, 10, "Food", "2024-01-01", "lunch"⟩ ∧
    resolve_expense_object_id wLedger (.index 1) = .error .outOfRange := by
  refine ⟨by decide, ?_, ?_⟩
  · exact ((positional_index_resolution wLedger 0 (by decide)).1 (by decide)).2.1
  · exact ((positional_index_resolution wLedger 1 (by decide)).2 (by decide)).1

end ExpenseTracker
